import Mathlib

/-!
Verification development for `kubernetes/nodecollection.go` of the
metrics-agent repository: a shallow embedding of the node-metrics
retrieval strategy engine (node listing and filtering, endpoint
availability masks, connectivity probing, and the cyclical fetch
orchestrator), together with theorems settling the specification's
claims about it.

External collaborators (the Kubernetes list client, the raw HTTP
transport, and the reachability tester) are modelled as oracles:
functions from the request issued to the outcome the collaborator
returns.  Stateful pieces (the endpoint masks, the session
configuration) are threaded explicitly; every function additionally
returns the list of transport requests it issued, so that
"endpoint X is never attempted" claims are statable.
-/

/-- A node status condition: the `Type` and `Status` fields of
`v1.NodeCondition` (both rendered as strings). -/
structure NodeCondition where
  type : String
  status : String
  deriving DecidableEq

/-- One entry of `node.Status.Addresses`: its `Type` and `Address`. -/
structure NodeAddressEntry where
  type : String
  address : String
  deriving DecidableEq

/-- The parts of `v1.Node` this file reads: name, status conditions,
status addresses, the kubelet daemon-endpoint port, labels and
`Spec.ProviderID`. -/
structure Node where
  name : String
  conditions : List NodeCondition
  addresses : List NodeAddressEntry
  kubeletPort : Int
  labels : List (String × String)
  providerID : String
  deriving DecidableEq

/-- Go map lookup `labels[key]`: the value when present, `""` otherwise. -/
def labelValue (labels : List (String × String)) (key : String) : String :=
  match labels.find? (fun kv => kv.1 = key) with
  | some kv => kv.2
  | none => ""

/-- Helper for `getNodeCondition`: scan from index `i`. -/
def findConditionFrom : Nat → List NodeCondition → String → Option (Nat × NodeCondition)
  | _, [], _ => none
  | i, c :: rest, t =>
    if c.type = t then some (i, c) else findConditionFrom (i + 1) rest t

/-- `getNodeCondition` from the source: the index and value of the first
condition of the requested type, `none` (Go: `-1, nil`) when absent. -/
def getNodeCondition (status : List NodeCondition) (conditionType : String) :
    Option (Nat × NodeCondition) :=
  findConditionFrom 0 status conditionType

/-- The retention test of `GetReadyNodes`'s loop, exactly as the source
writes it: `i >= 0 && nc.Type == v1.NodeReady` (the condition's status
field is not inspected). -/
def nodeHasReadyCondition (n : Node) : Bool :=
  match getNodeCondition n.conditions "Ready" with
  | some (_, nc) => nc.type = "Ready"
  | none => false

/-- `GetReadyNodes`: the external `List()` call's outcome is the input;
filter to the nodes passing the retention test, fail when none remain. -/
def GetReadyNodes (listResult : Except String (List Node)) : Except String (List Node) :=
  match listResult with
  | .error e => .error e
  | .ok allNodes =>
    let readyNodes := allNodes.filter nodeHasReadyCondition
    if readyNodes.length = 0 then
      .error "there were 0 nodes in a ready state"
    else
      .ok readyNodes

/-- `NodeAddress`: the first internal-IP status address together with the
kubelet port; an error when no internal-IP entry exists. -/
def NodeAddress (node : Node) : Except String (String × Int) :=
  match node.addresses.find? (fun addr => addr.type = "InternalIP") with
  | some addr => .ok (addr.address, node.kubeletPort)
  | none => .error ("Could not find internal IP address for node " ++ node.name ++ " ")

/-- The `Endpoint` enumeration of the source. -/
inductive Endpoint where
  | NodeStatsSummaryEndpoint
  | NodeContainerEndpoint
  | NodeCadvisorEndpoint
  deriving DecidableEq

/-- `EndpointMask`: membership of an endpoint means "available".  The Go
map `map[Endpoint]struct{}` is embedded as its membership function. -/
abbrev EndpointMask := Endpoint → Bool

/-- `EndpointMask.SetAvailable`: insert or delete the entry. -/
def EndpointMask.SetAvailable (m : EndpointMask) (endpoint : Endpoint) (available : Bool) :
    EndpointMask :=
  fun e => if e = endpoint then available else m e

/-- `EndpointMask.Available`: membership test. -/
def EndpointMask.Available (m : EndpointMask) (endpoint : Endpoint) : Bool :=
  m endpoint

/-- The `nodeRetrievalMethod` constants `direct`, `proxy`, `unreachable`.
Modelled from the spec: the constants are declared in the package outside
this source file; the spec calls them ConnectionMode {Direct, Proxy,
Unreachable}. -/
inductive NodeRetrievalMethod where
  | direct
  | proxy
  | unreachable
  deriving DecidableEq

/-- The fields of `KubeAgentConfig` this source file reads or writes.
Modelled from the spec: the struct itself is declared outside this source
file; the spec describes it as the read-only session configuration
(force-proxy flag, container-stats flag, cluster API base URL) plus the
connection mode and the two endpoint masks the prober sets. -/
structure KubeAgentConfig where
  ClusterHostURL : String
  nodeRetrievalMethod : NodeRetrievalMethod
  DirectEndpointMask : EndpointMask
  ProxyEndpointMask : EndpointMask
  ForceKubeProxy : Bool
  RetrieveStatsContainer : Bool
  RetrieveNodeSummaries : Bool

/-- The `proxyAPI` endpoint-address builder. -/
structure proxyAPI where
  clusterHostURL : String
  nodeName : String
  deriving DecidableEq

/-- `proxyAPI.statsSummary`. -/
def proxyAPI.statsSummary (p : proxyAPI) : String :=
  p.clusterHostURL ++ "/api/v1/nodes/" ++ p.nodeName ++ "/proxy/stats/summary"

/-- `proxyAPI.statsContainer`. -/
def proxyAPI.statsContainer (p : proxyAPI) : String :=
  p.clusterHostURL ++ "/api/v1/nodes/" ++ p.nodeName ++ "/proxy/stats/container/"

/-- `proxyAPI.mCAdvisor`. -/
def proxyAPI.mCAdvisor (p : proxyAPI) : String :=
  p.clusterHostURL ++ "/api/v1/nodes/" ++ p.nodeName ++ "/proxy/metrics/cadvisor"

/-- `proxyEndpoints`. -/
def proxyEndpoints (clusterHostURL nodeName : String) : proxyAPI :=
  { clusterHostURL := clusterHostURL, nodeName := nodeName }

/-- The `directNode` endpoint-address builder (Go stores the port as
`int64` after converting from `int32`). -/
structure directNode where
  ip : String
  port : Int
  deriving DecidableEq

/-- `directNode.statsSummary`. -/
def directNode.statsSummary (d : directNode) : String :=
  "https://" ++ d.ip ++ ":" ++ toString d.port ++ "/stats/summary"

/-- `directNode.statsContainer`. -/
def directNode.statsContainer (d : directNode) : String :=
  "https://" ++ d.ip ++ ":" ++ toString d.port ++ "/stats/container/"

/-- `directNode.mCAdvisor`. -/
def directNode.mCAdvisor (d : directNode) : String :=
  "https://" ++ d.ip ++ ":" ++ toString d.port ++ "/metrics/cadvisor"

/-- `directNodeEndpoints`. -/
def directNodeEndpoints (ip : String) (port : Int) : directNode :=
  { ip := ip, port := port }

/-- `sourceName`: deterministic artifact naming (`pfx` is the Go field
`prefix`, a Lean keyword). -/
structure sourceName where
  pfx : String
  nodeName : String
  deriving DecidableEq

/-- `sourceName.summary`. -/
def sourceName.summary (s : sourceName) : String :=
  s.pfx ++ "-summary-" ++ s.nodeName

/-- `sourceName.container`. -/
def sourceName.container (s : sourceName) : String :=
  s.pfx ++ "-container-" ++ s.nodeName

/-- `sourceName.cadvisorMetrics`. -/
def sourceName.cadvisorMetrics (s : sourceName) : String :=
  s.pfx ++ "-cadvisor_metrics-" ++ s.nodeName

/-- The Go interface `nodeAPI` seen by `retrieveNodeData`: the three URL
strings the chosen builder produces for the node. -/
structure NodeAPI where
  statsSummary : String
  statsContainer : String
  mCAdvisor : String
  deriving DecidableEq

/-- The `nodeAPI` view of a `directNode` builder. -/
def directNode.api (d : directNode) : NodeAPI :=
  { statsSummary := d.statsSummary
    statsContainer := d.statsContainer
    mCAdvisor := d.mCAdvisor }

/-- The `nodeAPI` view of a `proxyAPI` builder. -/
def proxyAPI.api (p : proxyAPI) : NodeAPI :=
  { statsSummary := p.statsSummary
    statsContainer := p.statsContainer
    mCAdvisor := p.mCAdvisor }

/-- `nodeFetchData` (`pfx` is the Go field `prefix`; the `*os.File`
work-directory handle carries no behaviour and is omitted). -/
structure nodeFetchData where
  nodeName : String
  pfx : String
  ClusterHostURL : String
  containersRequest : String
  deriving DecidableEq

/-- One call to the raw transport `GetRawEndPoint(method, sourceName,
workDir, url, body, true)`. -/
structure FetchRequest where
  method : String
  sourceName : String
  url : String
  body : Option String
  deriving DecidableEq

/-- The raw transport collaborator, as an oracle from the request issued
to its outcome. -/
abbrev FetchOracle := FetchRequest → Except String Unit

/-- The body `buildContainersRequest` serialises:
`json.Marshal(cadvisorStatsRequest{Subcontainers: true, NumStats: 1})`. -/
def containersRequestBody : String :=
  "\x7b\"num_stats\":1,\"subcontainers\":true\x7d"

/-- `buildContainersRequest`: marshalling the fixed request cannot fail. -/
def buildContainersRequest : Except String String :=
  .ok containersRequestBody

/-- The `/stats/summary` request of `retrieveNodeData`. -/
def summaryRequest (nd : nodeFetchData) (api : NodeAPI) : FetchRequest :=
  { method := "GET"
    sourceName := sourceName.summary { pfx := nd.pfx, nodeName := nd.nodeName }
    url := api.statsSummary
    body := none }

/-- The `/metrics/cadvisor` request of `retrieveNodeData`. -/
def cadvisorRequest (nd : nodeFetchData) (api : NodeAPI) : FetchRequest :=
  { method := "GET"
    sourceName := sourceName.cadvisorMetrics { pfx := nd.pfx, nodeName := nd.nodeName }
    url := api.mCAdvisor
    body := none }

/-- The `/stats/container` request of `retrieveNodeData`. -/
def containerRequest (nd : nodeFetchData) (api : NodeAPI) : FetchRequest :=
  { method := "POST"
    sourceName := sourceName.container { pfx := nd.pfx, nodeName := nd.nodeName }
    url := api.statsContainer
    body := some nd.containersRequest }

/-- One guarded block of `retrieveNodeData`: issue the request when the
mask marks the endpoint available, propagating the transport error. -/
def fetchIfAvailable (c : FetchOracle) (avail : Bool) (req : FetchRequest) :
    Except String Unit × List FetchRequest :=
  if avail then
    match c req with
    | .error e => (.error e, [req])
    | .ok _ => (.ok (), [req])
  else (.ok (), [])

/-- `retrieveNodeData`: the three endpoints in source order
(StatsSummary, CAdvisor, Container), each guarded by the mask, the first
error returned immediately.  Besides the Go result, the issued-request
trace and the mask reference's final state are returned. -/
def retrieveNodeData (nd : nodeFetchData) (c : FetchOracle) (mask : EndpointMask)
    (api : NodeAPI) : Except String Unit × List FetchRequest × EndpointMask :=
  match fetchIfAvailable c (EndpointMask.Available mask Endpoint.NodeStatsSummaryEndpoint)
      (summaryRequest nd api) with
  | (.error e, tr) => (.error e, tr, mask)
  | (.ok _, tr1) =>
    match fetchIfAvailable c (EndpointMask.Available mask Endpoint.NodeCadvisorEndpoint)
        (cadvisorRequest nd api) with
    | (.error e, tr) => (.error e, tr1 ++ tr, mask)
    | (.ok _, tr2) =>
      match fetchIfAvailable c (EndpointMask.Available mask Endpoint.NodeContainerEndpoint)
          (containerRequest nd api) with
      | (.error e, tr) => (.error e, tr1 ++ tr2 ++ tr, mask)
      | (.ok _, tr3) => (.ok (), tr1 ++ tr2 ++ tr3, mask)

/-- `directNodeFetch`: resolve the node address (failing closed before any
request is issued), then fetch through the direct builder and mask. -/
def directNodeFetch (config : KubeAgentConfig) (n : Node) (nd : nodeFetchData)
    (c : FetchOracle) : Except String Unit × List FetchRequest × EndpointMask :=
  match NodeAddress n with
  | .error e => (.error ("problem getting node address: " ++ e), [], config.DirectEndpointMask)
  | .ok (ip, port) =>
    retrieveNodeData nd c config.DirectEndpointMask (directNode.api (directNodeEndpoints ip port))

/-- `proxyNodeFetch`: fetch through the proxy builder and mask. -/
def proxyNodeFetch (nd : nodeFetchData) (config : KubeAgentConfig) (c : FetchOracle) :
    Except String Unit × List FetchRequest × EndpointMask :=
  retrieveNodeData nd c config.ProxyEndpointMask
    (proxyAPI.api (proxyEndpoints config.ClusterHostURL nd.nodeName))

/-- `isFargateNode`: the `eks.amazonaws.com/compute-type` label equals
`"fargate"`. -/
def isFargateNode (n : Node) : Bool :=
  labelValue n.labels "eks.amazonaws.com/compute-type" = "fargate"

/-- `allowDirectConnect`: false when the session forces kube-proxy mode or
any node of the list is a Fargate node. -/
def allowDirectConnect (config : KubeAgentConfig) (nodes : List Node) : Bool :=
  if config.ForceKubeProxy then false
  else !(nodes.any isFargateNode)

/-- The `failedNodeList` map (`map[string]error`), embedded as an
association list whose insert overwrites the entry of an existing key. -/
abbrev FailMap := List (String × String)

/-- Go map assignment `m[k] = v`. -/
def FailMap.insert : FailMap → String → String → FailMap
  | [], k, v => [(k, v)]
  | (k1, v1) :: rest, k, v =>
    if k1 = k then (k, v) :: rest else (k1, v1) :: FailMap.insert rest k v

/-- Go map lookup. -/
def FailMap.find? : FailMap → String → Option String
  | [], _ => none
  | (k1, v1) :: rest, k => if k1 = k then some v1 else FailMap.find? rest k

/-- The `nodeFetchData` that `downloadNodeData` builds for a node. -/
def mkNodeFetchData (pfx : String) (config : KubeAgentConfig) (n : Node) : nodeFetchData :=
  { nodeName := n.name
    pfx := pfx
    ClusterHostURL := config.ClusterHostURL
    containersRequest := containersRequestBody }

/-- The body of `downloadNodeData`'s per-node loop: the provider-ID
warning entry, the direct attempt (in Direct mode on non-Fargate nodes)
with its failure note, and the proxy attempt with its overwriting failure
note. -/
def processNode (pfx containersRequest : String) (config : KubeAgentConfig)
    (directOracle proxyOracle : FetchOracle) (acc : FailMap) (n : Node) :
    FailMap × List FetchRequest × KubeAgentConfig :=
  let acc := if n.providerID = "" then
      FailMap.insert acc n.name ("Provider ID for node does not exist. " ++
        "If this condition persists it will cause inconsistent cluster allocation")
    else acc
  let nd : nodeFetchData :=
    { nodeName := n.name
      pfx := pfx
      ClusterHostURL := config.ClusterHostURL
      containersRequest := containersRequest }
  if config.nodeRetrievalMethod = NodeRetrievalMethod.direct ∧ isFargateNode n = false then
    let (res, tr, dmask) := directNodeFetch config n nd directOracle
    let config := { config with DirectEndpointMask := dmask }
    match res with
    | .ok _ => (acc, tr, config)
    | .error e =>
      let acc := FailMap.insert acc n.name ("direct connect failed (will attempt proxy): " ++ e)
      let (res2, tr2, pmask) := proxyNodeFetch nd config proxyOracle
      let config := { config with ProxyEndpointMask := pmask }
      match res2 with
      | .ok _ => (acc, tr ++ tr2, config)
      | .error e2 =>
        (FailMap.insert acc n.name ("proxy connect failed: " ++ e2), tr ++ tr2, config)
  else
    let (res2, tr2, pmask) := proxyNodeFetch nd config proxyOracle
    let config := { config with ProxyEndpointMask := pmask }
    match res2 with
    | .ok _ => (acc, tr2, config)
    | .error e2 =>
      (FailMap.insert acc n.name ("proxy connect failed: " ++ e2), tr2, config)

/-- The `for _, n := range nodes` loop of `downloadNodeData`. -/
def downloadNodesLoop (pfx containersRequest : String)
    (directOracle proxyOracle : FetchOracle) :
    List Node → KubeAgentConfig → FailMap → List FetchRequest →
    FailMap × List FetchRequest × KubeAgentConfig
  | [], config, acc, tr => (acc, tr, config)
  | n :: rest, config, acc, tr =>
    let (acc2, tr2, config2) := processNode pfx containersRequest config directOracle proxyOracle acc n
    downloadNodesLoop pfx containersRequest directOracle proxyOracle rest config2 acc2 (tr ++ tr2)

/-- `downloadNodeData`: list the ready nodes (the upstream retry is part
of the listing oracle), build the container-stats body, then run the
per-node loop.  A listing failure yields `.error` — the Go `nil` report —
with no requests issued; otherwise the accumulated `failedNodeList` is
returned.  The final session configuration is returned as well so that
frame claims about the masks and mode are statable. -/
def downloadNodeData (pfx : String) (config : KubeAgentConfig)
    (listResult : Except String (List Node)) (directOracle proxyOracle : FetchOracle) :
    Except String FailMap × List FetchRequest × KubeAgentConfig :=
  match GetReadyNodes listResult with
  | .error e =>
    (.error ("cloudability metric agent is unable to get a list of nodes: " ++ e), [], config)
  | .ok nodes =>
    match buildContainersRequest with
    | .error e => (.error ("error occurred requesting container statistics: " ++ e), [], config)
    | .ok containersRequest =>
      let (acc, tr, config2) :=
        downloadNodesLoop pfx containersRequest directOracle proxyOracle nodes config [] []
      (.ok acc, tr, config2)

/-- The reachability collaborator `util.TestHTTPConnection`, as an oracle
from (url, method) to the reachability verdict or a transport error. -/
abbrev ProbeOracle := String → String → Except String Bool

/-- `testNodeConn`: probe StatsSummary (GET) and CAdvisor (GET), and —
only when the session collects container stats — Container (POST),
recording each verdict in the mask; a transport error aborts immediately.
Succeeds iff `ns && (cm || cs)`. -/
def testNodeConn (config : KubeAgentConfig) (probe : ProbeOracle) (mask : EndpointMask)
    (nodeStatSum containerStats cadvisorMetrics : String) :
    Except String Bool × EndpointMask :=
  match probe nodeStatSum "GET" with
  | .error e => (.error e, mask)
  | .ok ns =>
    let mask := EndpointMask.SetAvailable mask Endpoint.NodeStatsSummaryEndpoint ns
    match probe cadvisorMetrics "GET" with
    | .error e => (.error e, mask)
    | .ok cm =>
      let mask := EndpointMask.SetAvailable mask Endpoint.NodeCadvisorEndpoint cm
      if config.RetrieveStatsContainer then
        match probe containerStats "POST" with
        | .error e => (.error e, mask)
        | .ok cs =>
          let mask := EndpointMask.SetAvailable mask Endpoint.NodeContainerEndpoint cs
          (.ok (ns && (cm || cs)), mask)
      else
        (.ok (ns && (cm || false)), mask)

/-- Fallback value for `nodes[0]` (never used: `GetReadyNodes` fails on an
empty retained list). -/
def defaultNode : Node :=
  { name := "", conditions := [], addresses := [], kubeletPort := 0,
    labels := [], providerID := "" }

/-- `ensureNodeSource`: the once-per-session connectivity prober.  The
direct probe (when `allowDirectConnect` holds) and the kube-proxy probe
use distinct probe oracles, mirroring the two HTTP clients of the Go
code. -/
def ensureNodeSource (config : KubeAgentConfig) (listResult : Except String (List Node))
    (directProbe proxyProbe : ProbeOracle) : KubeAgentConfig × Option String :=
  match GetReadyNodes listResult with
  | .error e => (config, some ("error retrieving nodes: " ++ e))
  | .ok nodes =>
    let firstNode := nodes.headD defaultNode
    match NodeAddress firstNode with
    | .error e => (config, some ("error retrieving node addresses: " ++ e))
    | .ok (ip, _port) =>
      let proxyPhase : KubeAgentConfig → KubeAgentConfig × Option String := fun config =>
        let p := proxyEndpoints config.ClusterHostURL firstNode.name
        let (res, pmask) := testNodeConn config proxyProbe config.ProxyEndpointMask
          (proxyAPI.statsSummary p) (proxyAPI.statsContainer p) (proxyAPI.mCAdvisor p)
        let config := { config with ProxyEndpointMask := pmask }
        match res with
        | .error e => (config, some e)
        | .ok true => ({ config with nodeRetrievalMethod := NodeRetrievalMethod.proxy }, none)
        | .ok false =>
          ({ config with
              nodeRetrievalMethod := NodeRetrievalMethod.unreachable
              RetrieveNodeSummaries := false },
            some "unable to retrieve node metrics. Please verify RBAC roles: <nil>")
      if allowDirectConnect config nodes then
        let d := directNodeEndpoints ip _port
        let (res, dmask) := testNodeConn config directProbe config.DirectEndpointMask
          (directNode.statsSummary d) (directNode.statsContainer d) (directNode.mCAdvisor d)
        let config := { config with DirectEndpointMask := dmask }
        match res with
        | .error e => (config, some e)
        | .ok true => ({ config with nodeRetrievalMethod := NodeRetrievalMethod.direct }, none)
        | .ok false => proxyPhase config
      else
        proxyPhase config

/-- Stated from the spec's words, for comparison with `retrieveNodeData`:
the requests of a node/mode pass are the masked endpoints in the fixed
order StatsSummary, CAdvisor, Container. -/
def retrieveRequests (nd : nodeFetchData) (mask : EndpointMask) (api : NodeAPI) :
    List FetchRequest :=
  (if EndpointMask.Available mask Endpoint.NodeStatsSummaryEndpoint
    then [summaryRequest nd api] else []) ++
  ((if EndpointMask.Available mask Endpoint.NodeCadvisorEndpoint
    then [cadvisorRequest nd api] else []) ++
  (if EndpointMask.Available mask Endpoint.NodeContainerEndpoint
    then [containerRequest nd api] else []))

/-- Stated from the spec's words, for comparison with `retrieveNodeData`:
issue a request list in order, stopping at (and returning) the first
transport error. -/
def runRequests (c : FetchOracle) : List FetchRequest → Except String Unit × List FetchRequest
  | [] => (.ok (), [])
  | r :: rs =>
    match c r with
    | .error e => (.error e, [r])
    | .ok _ =>
      let (res, tr) := runRequests c rs
      (res, r :: tr)

/-! ### Concrete instances used by the counterexample and the witnesses -/

/-- C1 instance: a node whose sole condition is of type `Ready` with
status `False`. -/
def c1Node : Node :=
  { name := "n1", conditions := [{ type := "Ready", status := "False" }],
    addresses := [], kubeletPort := 0, labels := [], providerID := "p" }

/-- C2 instance: a direct mask marking only StatsSummary available. -/
def c2mask : EndpointMask := fun e =>
  match e with
  | Endpoint.NodeStatsSummaryEndpoint => true
  | _ => false

/-- C2 instance: a session in Direct mode. -/
def c2config : KubeAgentConfig :=
  { ClusterHostURL := "https://api"
    nodeRetrievalMethod := NodeRetrievalMethod.direct
    DirectEndpointMask := c2mask
    ProxyEndpointMask := fun _ => false
    ForceKubeProxy := false
    RetrieveStatsContainer := false
    RetrieveNodeSummaries := true }

/-- C2 instance: a ready non-Fargate node with an internal IP. -/
def c2node : Node :=
  { name := "B", conditions := [{ type := "Ready", status := "True" }],
    addresses := [{ type := "InternalIP", address := "10.0.0.2" }],
    kubeletPort := 10250, labels := [], providerID := "aws:///b" }

/-- C2 instance: a transport whose every request fails. -/
def c2failOracle : FetchOracle := fun _ => .error "boom"

/-- C2 instance: a transport whose every request succeeds. -/
def c2okOracle : FetchOracle := fun _ => .ok ()

/-- C3 instance: a session collecting container stats. -/
def c3config : KubeAgentConfig :=
  { ClusterHostURL := "https://api"
    nodeRetrievalMethod := NodeRetrievalMethod.proxy
    DirectEndpointMask := fun _ => false
    ProxyEndpointMask := fun _ => false
    ForceKubeProxy := false
    RetrieveStatsContainer := true
    RetrieveNodeSummaries := true }

/-- C3 instance: StatsSummary and CAdvisor reachable, Container not. -/
def c3probe : ProbeOracle := fun url _ =>
  if url = "s" then .ok true else if url = "a" then .ok true else .ok false

/-- C3 instance: an empty mask. -/
def c3mask : EndpointMask := fun _ => false

/-- C5 instance: fetch context. -/
def c5nd : nodeFetchData :=
  { nodeName := "n5", pfx := "stats", ClusterHostURL := "https://api",
    containersRequest := containersRequestBody }

/-- C5 instance: endpoint URLs. -/
def c5api : NodeAPI := { statsSummary := "s", statsContainer := "c", mCAdvisor := "a" }

/-- C5 instance: every endpoint available. -/
def c5mask : EndpointMask := fun _ => true

/-- C5 instance: the CAdvisor URL fails, everything else succeeds. -/
def c5oracle : FetchOracle := fun r => if r.url = "a" then .error "cad" else .ok ()

/-- C6 instance: a session that neither forces proxy mode nor collects
container stats. -/
def c6config : KubeAgentConfig :=
  { ClusterHostURL := "https://api"
    nodeRetrievalMethod := NodeRetrievalMethod.proxy
    DirectEndpointMask := fun _ => false
    ProxyEndpointMask := fun _ => false
    ForceKubeProxy := false
    RetrieveStatsContainer := false
    RetrieveNodeSummaries := true }

/-- C6 instance: a ready non-Fargate node with an internal IP. -/
def c6node : Node :=
  { name := "n6", conditions := [{ type := "Ready", status := "True" }],
    addresses := [{ type := "InternalIP", address := "10.0.0.6" }],
    kubeletPort := 10250, labels := [], providerID := "p6" }

/-- C6 instance: every probe reports unreachable (no transport error). -/
def c6probe : ProbeOracle := fun _ _ => .ok false

/-- C7 instance: any session configuration. -/
def c7config : KubeAgentConfig :=
  { ClusterHostURL := "https://api"
    nodeRetrievalMethod := NodeRetrievalMethod.direct
    DirectEndpointMask := fun _ => true
    ProxyEndpointMask := fun _ => true
    ForceKubeProxy := false
    RetrieveStatsContainer := true
    RetrieveNodeSummaries := true }

/-- C7 instance: a transport whose every request succeeds. -/
def c7oracle : FetchOracle := fun _ => .ok ()

/-- C9 instance: a node whose status addresses carry no internal-IP
entry. -/
def c9node : Node :=
  { name := "n9", conditions := [{ type := "Ready", status := "True" }],
    addresses := [{ type := "Hostname", address := "host9" }],
    kubeletPort := 10250, labels := [], providerID := "p9" }

/-- C9 instance: a session in Direct mode with every endpoint masked
available. -/
def c9config : KubeAgentConfig :=
  { ClusterHostURL := "https://api"
    nodeRetrievalMethod := NodeRetrievalMethod.direct
    DirectEndpointMask := fun _ => true
    ProxyEndpointMask := fun _ => true
    ForceKubeProxy := false
    RetrieveStatsContainer := true
    RetrieveNodeSummaries := true }

/-- C9 instance: fetch context. -/
def c9nd : nodeFetchData :=
  { nodeName := "n9", pfx := "stats", ClusterHostURL := "https://api",
    containersRequest := containersRequestBody }

/-- C9 instance: a transport whose every request succeeds. -/
def c9oracle : FetchOracle := fun _ => .ok ()

/-- C10 instance: a session not collecting container stats. -/
def c10config : KubeAgentConfig :=
  { ClusterHostURL := "https://api"
    nodeRetrievalMethod := NodeRetrievalMethod.proxy
    DirectEndpointMask := fun _ => false
    ProxyEndpointMask := fun _ => false
    ForceKubeProxy := false
    RetrieveStatsContainer := false
    RetrieveNodeSummaries := true }

/-- C10 instance: every probe reports reachable. -/
def c10probe : ProbeOracle := fun _ _ => .ok true

/-- C10 instance: a mask with a pre-existing available Container entry. -/
def c10mask : EndpointMask := fun e =>
  match e with
  | Endpoint.NodeContainerEndpoint => true
  | _ => false

theorem retrieveNodeData_mask (nd : nodeFetchData) (c : FetchOracle) (mask : EndpointMask)
    (api : NodeAPI) : (retrieveNodeData nd c mask api).2.2 = mask := by
  unfold retrieveNodeData
  split
  · rfl
  · split
    · rfl
    · split <;> rfl

theorem directNodeFetch_mask (config : KubeAgentConfig) (n : Node) (nd : nodeFetchData)
    (c : FetchOracle) : (directNodeFetch config n nd c).2.2 = config.DirectEndpointMask := by
  unfold directNodeFetch
  split
  · rfl
  · exact retrieveNodeData_mask ..

theorem proxyNodeFetch_mask (nd : nodeFetchData) (config : KubeAgentConfig) (c : FetchOracle) :
    (proxyNodeFetch nd config c).2.2 = config.ProxyEndpointMask := by
  unfold proxyNodeFetch
  exact retrieveNodeData_mask ..

theorem processNode_config (pfx cr : String) (config : KubeAgentConfig)
    (dOr pOr : FetchOracle) (acc : FailMap) (n : Node) :
    (processNode pfx cr config dOr pOr acc n).2.2 = config := by
  unfold processNode
  simp only [directNodeFetch_mask, proxyNodeFetch_mask]
  repeat' split
  all_goals rfl

theorem downloadNodesLoop_config (pfx cr : String) (dOr pOr : FetchOracle)
    (nodes : List Node) (config : KubeAgentConfig) (acc : FailMap) (tr : List FetchRequest) :
    (downloadNodesLoop pfx cr dOr pOr nodes config acc tr).2.2 = config := by
  induction nodes generalizing config acc tr with
  | nil => rfl
  | cons n rest ih =>
    unfold downloadNodesLoop
    rcases hP : processNode pfx cr config dOr pOr acc n with ⟨acc2, tr2, config2⟩
    have hc : config2 = config := by
      have h2 := processNode_config pfx cr config dOr pOr acc n
      rw [hP] at h2
      exact h2
    subst hc
    exact ih ..

theorem downloadNodeData_config (pfx : String) (config : KubeAgentConfig)
    (listResult : Except String (List Node)) (dOr pOr : FetchOracle) :
    (downloadNodeData pfx config listResult dOr pOr).2.2 = config := by
  unfold downloadNodeData
  split
  · rfl
  · split
    · rfl
    · simp only [downloadNodesLoop_config]

theorem testNodeConn_congr (cfg1 cfg2 : KubeAgentConfig) (probe : ProbeOracle)
    (mask : EndpointMask) (s c a : String)
    (h : cfg1.RetrieveStatsContainer = cfg2.RetrieveStatsContainer) :
    testNodeConn cfg1 probe mask s c a = testNodeConn cfg2 probe mask s c a := by
  unfold testNodeConn
  rw [h]

theorem runRequests_cons_if (c : FetchOracle) (b : Bool) (req : FetchRequest)
    (rest : List FetchRequest) :
    runRequests c ((if b then [req] else []) ++ rest) =
      (match fetchIfAvailable c b req with
        | (.error e, tr) => (.error e, tr)
        | (.ok _, tr1) =>
          (match runRequests c rest with
            | (res, tr2) => (res, tr1 ++ tr2))) := by
  cases b
  · simp [fetchIfAvailable, runRequests]
  · cases hc : c req <;> simp [fetchIfAvailable, runRequests, hc]

theorem retrieveNodeData_run (nd : nodeFetchData) (c : FetchOracle) (mask : EndpointMask)
    (api : NodeAPI) :
    (retrieveNodeData nd c mask api).1 = (runRequests c (retrieveRequests nd mask api)).1 ∧
    (retrieveNodeData nd c mask api).2.1 = (runRequests c (retrieveRequests nd mask api)).2 := by
  unfold retrieveNodeData retrieveRequests
  rw [runRequests_cons_if]
  rcases h1 : fetchIfAvailable c (EndpointMask.Available mask Endpoint.NodeStatsSummaryEndpoint)
      (summaryRequest nd api) with ⟨res1, tr1⟩
  cases res1 with
  | error e => simp
  | ok u =>
    rw [runRequests_cons_if]
    rcases h2 : fetchIfAvailable c (EndpointMask.Available mask Endpoint.NodeCadvisorEndpoint)
        (cadvisorRequest nd api) with ⟨res2, tr2⟩
    cases res2 with
    | error e => simp
    | ok u2 =>
      cases h3 : EndpointMask.Available mask Endpoint.NodeContainerEndpoint with
      | false => simp [fetchIfAvailable, runRequests, h3]
      | true =>
        cases hc3 : c (containerRequest nd api) <;>
          simp [fetchIfAvailable, runRequests, h3, hc3]

/-- C1 (code bug): `GetReadyNodes` retains a node whose "Ready" condition
is present but has status `"False"` — the loop checks only that a
condition of type Ready exists (`i >= 0 && nc.Type == v1.NodeReady`) and
never inspects `nc.Status`, so the claim's "status true" filter is not
what the code computes. -/
theorem c1_getReadyNodes_ignores_ready_status :
    GetReadyNodes (.ok [c1Node]) = .ok [c1Node] ∧
    getNodeCondition c1Node.conditions "Ready" =
      some (0, { type := "Ready", status := "False" }) := by
  constructor <;> rfl

/-- C4: `allowDirectConnect` returns false exactly when the configuration
forces kube-proxy mode or some node of the list carries the label
`eks.amazonaws.com/compute-type` with value `"fargate"`; it returns true
whenever neither holds. -/
theorem c4_allowDirectConnect_characterization (config : KubeAgentConfig) (nodes : List Node) :
    allowDirectConnect config nodes = false ↔
      (config.ForceKubeProxy = true ∨
        ∃ n ∈ nodes, labelValue n.labels "eks.amazonaws.com/compute-type" = "fargate") := by
  unfold allowDirectConnect
  by_cases h : config.ForceKubeProxy <;> simp [h, isFargateNode, List.any_eq_true]

/-- C5: `retrieveNodeData` behaves as "issue the masked endpoints in the
fixed order StatsSummary, CAdvisor, Container, aborting at the first
error": its result and request trace equal those of `runRequests` on
`retrieveRequests`; in particular, when StatsSummary succeeds and
CAdvisor fails, the error is returned with only those two requests issued
and Container is never attempted. -/
theorem c5_retrieveNodeData_fixed_order_first_error (nd : nodeFetchData) (c : FetchOracle)
    (mask : EndpointMask) (api : NodeAPI) :
    ((retrieveNodeData nd c mask api).1 = (runRequests c (retrieveRequests nd mask api)).1 ∧
      (retrieveNodeData nd c mask api).2.1 = (runRequests c (retrieveRequests nd mask api)).2) ∧
    (∀ e : String,
      EndpointMask.Available mask Endpoint.NodeStatsSummaryEndpoint = true →
      EndpointMask.Available mask Endpoint.NodeCadvisorEndpoint = true →
      c (summaryRequest nd api) = .ok () →
      c (cadvisorRequest nd api) = .error e →
      (retrieveNodeData nd c mask api).1 = .error e ∧
      (retrieveNodeData nd c mask api).2.1 = [summaryRequest nd api, cadvisorRequest nd api] ∧
      containerRequest nd api ∉ (retrieveNodeData nd c mask api).2.1) := by
  refine ⟨retrieveNodeData_run nd c mask api, ?_⟩
  intro e hs hc hok herr
  have hr : retrieveNodeData nd c mask api =
      (.error e, [summaryRequest nd api, cadvisorRequest nd api], mask) := by
    unfold retrieveNodeData
    simp [fetchIfAvailable, hs, hc, hok, herr]
  refine ⟨by rw [hr], by rw [hr], ?_⟩
  rw [hr]
  simp [summaryRequest, cadvisorRequest, containerRequest]

/-- C5 witness: with every endpoint available and transport failing
exactly on the CAdvisor URL, the pass returns that error and the
Container request is absent from the trace. -/
theorem c5_retrieveNodeData_fixed_order_first_error_witness :
    (retrieveNodeData c5nd c5oracle c5mask c5api).1 = .error "cad" ∧
    containerRequest c5nd c5api ∉ (retrieveNodeData c5nd c5oracle c5mask c5api).2.1 := by
  have h := (c5_retrieveNodeData_fixed_order_first_error c5nd c5oracle c5mask c5api).2
    "cad" rfl rfl rfl rfl
  exact ⟨h.1, h.2.2⟩

/-- C10: when container-stats collection is not configured,
`testNodeConn` leaves the Container entry of the supplied mask exactly as
it was (a pre-existing available entry stays available). -/
theorem c10_container_entry_untouched (config : KubeAgentConfig) (probe : ProbeOracle)
    (mask : EndpointMask) (s c a : String)
    (h : config.RetrieveStatsContainer = false) :
    EndpointMask.Available (testNodeConn config probe mask s c a).2
        Endpoint.NodeContainerEndpoint =
      EndpointMask.Available mask Endpoint.NodeContainerEndpoint := by
  unfold testNodeConn
  cases h1 : probe s "GET" with
  | error e => rfl
  | ok ns =>
    cases h2 : probe a "GET" with
    | error e => simp [EndpointMask.Available, EndpointMask.SetAvailable]
    | ok cm => simp [h, EndpointMask.Available, EndpointMask.SetAvailable]

/-- C10 witness: with container stats not collected, a pre-existing
available Container entry survives the probe call. -/
theorem c10_container_entry_untouched_witness :
    EndpointMask.Available (testNodeConn c10config c10probe c10mask "s" "c" "a").2
        Endpoint.NodeContainerEndpoint =
      EndpointMask.Available c10mask Endpoint.NodeContainerEndpoint :=
  c10_container_entry_untouched c10config c10probe c10mask "s" "c" "a" rfl

/-- C2 counterexample -/
theorem c2_recovered_node_still_reported :
    (directNodeFetch c2config c2node (mkNodeFetchData "stats" c2config c2node) c2failOracle).1 =
      .error "boom" ∧
    (proxyNodeFetch (mkNodeFetchData "stats" c2config c2node) c2config c2okOracle).1 = .ok () ∧
    (downloadNodeData "stats" c2config (.ok [c2node]) c2failOracle c2okOracle).1 =
      .ok [("B", "direct connect failed (will attempt proxy): boom")] :=
  ⟨rfl, rfl, rfl⟩

/-- C2 amended -/
theorem c2_direct_failure_note_persists (pfx : String) (config : KubeAgentConfig) (n : Node)
    (dOr pOr : FetchOracle) (e : String)
    (hready : nodeHasReadyCondition n = true)
    (hpid : ¬ n.providerID = "")
    (hmode : config.nodeRetrievalMethod = NodeRetrievalMethod.direct)
    (hfar : isFargateNode n = false)
    (hdirect : (directNodeFetch config n (mkNodeFetchData pfx config n) dOr).1 = .error e)
    (hproxy : (proxyNodeFetch (mkNodeFetchData pfx config n) config pOr).1 = .ok ()) :
    (downloadNodeData pfx config (.ok [n]) dOr pOr).1 =
      .ok [(n.name, "direct connect failed (will attempt proxy): " ++ e)] := by
  unfold mkNodeFetchData at hdirect hproxy
  have hlist : GetReadyNodes (.ok [n]) = .ok [n] := by
    unfold GetReadyNodes
    simp [List.filter, hready]
  unfold downloadNodeData
  rw [hlist]
  simp only [buildContainersRequest]
  unfold downloadNodesLoop
  unfold processNode
  rw [if_neg hpid, if_pos ⟨hmode, hfar⟩]
  rcases hD : directNodeFetch config n
      { nodeName := n.name, pfx := pfx, ClusterHostURL := config.ClusterHostURL,
        containersRequest := containersRequestBody } dOr with ⟨res, tr, dmask⟩
  have hres : res = .error e := by rw [hD] at hdirect; exact hdirect
  subst hres
  have hdm : dmask = config.DirectEndpointMask := by
    have h2 := directNodeFetch_mask config n
      { nodeName := n.name, pfx := pfx, ClusterHostURL := config.ClusterHostURL,
        containersRequest := containersRequestBody } dOr
    rw [hD] at h2
    exact h2
  subst hdm
  have hcfg : ({ config with DirectEndpointMask := config.DirectEndpointMask } :
      KubeAgentConfig) = config := rfl
  dsimp only
  rw [hcfg]
  rcases hP : proxyNodeFetch
      { nodeName := n.name, pfx := pfx, ClusterHostURL := config.ClusterHostURL,
        containersRequest := containersRequestBody } config pOr with ⟨res2, tr2, pmask⟩
  have hres2 : res2 = .ok () := by rw [hP] at hproxy; exact hproxy
  subst hres2
  dsimp only
  unfold downloadNodesLoop
  simp [FailMap.insert]

/-- C2 witness -/
theorem c2_direct_failure_note_persists_witness :
    (downloadNodeData "stats" c2config (.ok [c2node]) c2failOracle c2okOracle).1 =
      .ok [("B", "direct connect failed (will attempt proxy): boom")] :=
  c2_direct_failure_note_persists "stats" c2config c2node c2failOracle c2okOracle
    "boom" rfl (by decide) rfl rfl rfl rfl

/-- C3 -/
theorem c3_testNodeConn_success_rule (config : KubeAgentConfig) (probe : ProbeOracle)
    (mask : EndpointMask) (s c a : String) :
    (∀ ns cm cs : Bool,
      probe s "GET" = .ok ns → probe a "GET" = .ok cm → probe c "POST" = .ok cs →
      (testNodeConn config probe mask s c a).1 =
        .ok (ns && (cm || (config.RetrieveStatsContainer && cs))) ∧
      EndpointMask.Available (testNodeConn config probe mask s c a).2
        Endpoint.NodeStatsSummaryEndpoint = ns ∧
      EndpointMask.Available (testNodeConn config probe mask s c a).2
        Endpoint.NodeCadvisorEndpoint = cm ∧
      EndpointMask.Available (testNodeConn config probe mask s c a).2
        Endpoint.NodeContainerEndpoint =
        (if config.RetrieveStatsContainer then cs
          else EndpointMask.Available mask Endpoint.NodeContainerEndpoint)) ∧
    (∀ e : String, probe s "GET" = .error e →
      (testNodeConn config probe mask s c a).1 = .error e) ∧
    (∀ (e : String) (ns : Bool), probe s "GET" = .ok ns → probe a "GET" = .error e →
      (testNodeConn config probe mask s c a).1 = .error e) ∧
    (∀ (e : String) (ns cm : Bool), config.RetrieveStatsContainer = true →
      probe s "GET" = .ok ns → probe a "GET" = .ok cm → probe c "POST" = .error e →
      (testNodeConn config probe mask s c a).1 = .error e) := by
  refine ⟨?_, ?_, ?_, ?_⟩
  · intro ns cm cs hs ha hc
    unfold testNodeConn
    rw [hs, ha]
    by_cases hr : config.RetrieveStatsContainer <;>
      simp [hr, hc, EndpointMask.Available, EndpointMask.SetAvailable]
  · intro e hs
    unfold testNodeConn
    rw [hs]
  · intro e ns hs ha
    unfold testNodeConn
    rw [hs, ha]
  · intro e ns cm hr hs ha hc
    unfold testNodeConn
    rw [hs, ha]
    simp [hr, hc]

/-- C3 witness -/
theorem c3_testNodeConn_success_rule_witness :
    (testNodeConn c3config c3probe c3mask "s" "c" "a").1 = .ok true ∧
    EndpointMask.Available (testNodeConn c3config c3probe c3mask "s" "c" "a").2
      Endpoint.NodeContainerEndpoint = false := by
  have h := (c3_testNodeConn_success_rule c3config c3probe c3mask "s" "c" "a").1
    true true false rfl rfl rfl
  exact ⟨h.1.trans rfl, h.2.2.2.trans rfl⟩

/-- C7 -/
theorem c7_listing_failure_aborts_cycle (pfx : String) (config : KubeAgentConfig)
    (listResult : Except String (List Node)) (dOr pOr : FetchOracle) (e : String)
    (h : GetReadyNodes listResult = .error e) :
    (downloadNodeData pfx config listResult dOr pOr).1 =
      .error ("cloudability metric agent is unable to get a list of nodes: " ++ e) ∧
    (downloadNodeData pfx config listResult dOr pOr).2.1 = [] ∧
    (∀ nodes : List Node, (∀ n ∈ nodes, nodeHasReadyCondition n = false) →
      GetReadyNodes (.ok nodes) = .error "there were 0 nodes in a ready state") := by
  refine ⟨?_, ?_, ?_⟩
  · unfold downloadNodeData
    rw [h]
  · unfold downloadNodeData
    rw [h]
  · intro nodes hall
    have hfil : nodes.filter nodeHasReadyCondition = [] := by
      rw [List.filter_eq_nil_iff]
      intro x hx
      simp [hall x hx]
    unfold GetReadyNodes
    simp [hfil]

/-- C7 witness -/
theorem c7_listing_failure_aborts_cycle_witness :
    (downloadNodeData "stats" c7config (.error "boom") c7oracle c7oracle).1 =
      .error ("cloudability metric agent is unable to get a list of nodes: " ++ "boom") :=
  (c7_listing_failure_aborts_cycle "stats" c7config (.error "boom") c7oracle c7oracle
    "boom" rfl).1

/-- C9 -/
theorem c9_missing_internal_ip_fails_closed (config : KubeAgentConfig) (n : Node)
    (nd : nodeFetchData) (c : FetchOracle) (pfx cr : String) (pOr : FetchOracle) (acc : FailMap)
    (h : ∀ addr ∈ n.addresses, ¬ addr.type = "InternalIP") :
    NodeAddress n = .error ("Could not find internal IP address for node " ++ n.name ++ " ") ∧
    (directNodeFetch config n nd c).1 =
      .error ("problem getting node address: " ++
        ("Could not find internal IP address for node " ++ n.name ++ " ")) ∧
    (directNodeFetch config n nd c).2.1 = [] ∧
    (config.nodeRetrievalMethod = NodeRetrievalMethod.direct → isFargateNode n = false →
      (processNode pfx cr config c pOr acc n).2.1 =
        (proxyNodeFetch
          { nodeName := n.name, pfx := pfx, ClusterHostURL := config.ClusterHostURL,
            containersRequest := cr }
          config pOr).2.1) := by
  have hfind : n.addresses.find? (fun addr => addr.type = "InternalIP") = none := by
    rw [List.find?_eq_none]
    intro x hx
    simpa using h x hx
  have hNA : NodeAddress n =
      .error ("Could not find internal IP address for node " ++ n.name ++ " ") := by
    unfold NodeAddress
    rw [hfind]
  have hDF : ∀ (nd2 : nodeFetchData) (c2 : FetchOracle), directNodeFetch config n nd2 c2 =
      (.error ("problem getting node address: " ++
        ("Could not find internal IP address for node " ++ n.name ++ " ")), [],
        config.DirectEndpointMask) := by
    intro nd2 c2
    unfold directNodeFetch
    rw [hNA]
  refine ⟨hNA, by rw [hDF], by rw [hDF], ?_⟩
  intro hmode hfar
  unfold processNode
  rw [if_pos ⟨hmode, hfar⟩, hDF]
  dsimp only
  have hcfg : ({ config with DirectEndpointMask := config.DirectEndpointMask } :
      KubeAgentConfig) = config := rfl
  rw [hcfg]
  rcases hP : proxyNodeFetch
      { nodeName := n.name, pfx := pfx, ClusterHostURL := config.ClusterHostURL,
        containersRequest := cr } config pOr with ⟨res2, tr2, pmask⟩
  cases res2 <;> rfl

/-- C9 witness -/
theorem c9_missing_internal_ip_fails_closed_witness :
    (directNodeFetch c9config c9node c9nd c9oracle).1 =
      .error ("problem getting node address: " ++
        ("Could not find internal IP address for node " ++ "n9" ++ " ")) ∧
    (directNodeFetch c9config c9node c9nd c9oracle).2.1 = [] := by
  have h := c9_missing_internal_ip_fails_closed c9config c9node c9nd c9oracle
    "stats" containersRequestBody c9oracle [] (by decide)
  exact ⟨h.2.1, h.2.2.1⟩

/-- C8 -/
theorem c8_fetch_cycle_preserves_mode_and_masks (pfx : String) (config : KubeAgentConfig)
    (listResult : Except String (List Node)) (directOracle proxyOracle : FetchOracle) :
    (downloadNodeData pfx config listResult directOracle proxyOracle).2.2.DirectEndpointMask =
      config.DirectEndpointMask ∧
    (downloadNodeData pfx config listResult directOracle proxyOracle).2.2.ProxyEndpointMask =
      config.ProxyEndpointMask ∧
    (downloadNodeData pfx config listResult directOracle proxyOracle).2.2.nodeRetrievalMethod =
      config.nodeRetrievalMethod ∧
    (∀ (nd : nodeFetchData) (c : FetchOracle) (mask : EndpointMask) (api : NodeAPI),
      (retrieveNodeData nd c mask api).2.2 = mask) := by
  refine ⟨?_, ?_, ?_, fun nd c mask api => retrieveNodeData_mask nd c mask api⟩ <;>
    rw [downloadNodeData_config]

/-- C6 -/
theorem c6_ensureNodeSource_unreachable_or_direct (config : KubeAgentConfig)
    (listResult : Except String (List Node)) (directProbe proxyProbe : ProbeOracle)
    (n : Node) (rest : List Node) (ip : String) (port : Int)
    (hlist : GetReadyNodes listResult = .ok (n :: rest))
    (haddr : NodeAddress n = .ok (ip, port)) :
    ((allowDirectConnect config (n :: rest) = true →
        (testNodeConn config directProbe config.DirectEndpointMask
          (directNode.statsSummary (directNodeEndpoints ip port))
          (directNode.statsContainer (directNodeEndpoints ip port))
          (directNode.mCAdvisor (directNodeEndpoints ip port))).1 = .ok false) →
      (testNodeConn config proxyProbe config.ProxyEndpointMask
        (proxyAPI.statsSummary (proxyEndpoints config.ClusterHostURL n.name))
        (proxyAPI.statsContainer (proxyEndpoints config.ClusterHostURL n.name))
        (proxyAPI.mCAdvisor (proxyEndpoints config.ClusterHostURL n.name))).1 = .ok false →
      ((ensureNodeSource config listResult directProbe proxyProbe).1.nodeRetrievalMethod =
          NodeRetrievalMethod.unreachable ∧
        (ensureNodeSource config listResult directProbe proxyProbe).1.RetrieveNodeSummaries =
          false ∧
        (ensureNodeSource config listResult directProbe proxyProbe).2 =
          some "unable to retrieve node metrics. Please verify RBAC roles: <nil>")) ∧
    (allowDirectConnect config (n :: rest) = true →
      (testNodeConn config directProbe config.DirectEndpointMask
        (directNode.statsSummary (directNodeEndpoints ip port))
        (directNode.statsContainer (directNodeEndpoints ip port))
        (directNode.mCAdvisor (directNodeEndpoints ip port))).1 = .ok true →
      ((ensureNodeSource config listResult directProbe proxyProbe).1.nodeRetrievalMethod =
          NodeRetrievalMethod.direct ∧
        (ensureNodeSource config listResult directProbe proxyProbe).2 = none ∧
        (∀ proxyProbe2 : ProbeOracle,
          ensureNodeSource config listResult directProbe proxyProbe2 =
            ensureNodeSource config listResult directProbe proxyProbe) ∧
        (ensureNodeSource config listResult directProbe proxyProbe).1.ProxyEndpointMask =
          config.ProxyEndpointMask)) := by
  constructor
  · intro hDfalse hPfalse
    unfold ensureNodeSource
    rw [hlist]
    simp only [List.headD_cons]
    rw [haddr]
    dsimp only
    cases hA : allowDirectConnect config (n :: rest) with
    | true =>
      have hd := hDfalse hA
      rcases hT : testNodeConn config directProbe config.DirectEndpointMask
          (directNode.statsSummary (directNodeEndpoints ip port))
          (directNode.statsContainer (directNodeEndpoints ip port))
          (directNode.mCAdvisor (directNodeEndpoints ip port)) with ⟨res, dmask⟩
      have hres : res = .ok false := by rw [hT] at hd; exact hd
      subst hres
      dsimp only
      rw [testNodeConn_congr ({ config with DirectEndpointMask := dmask }) config proxyProbe
        config.ProxyEndpointMask
        (proxyAPI.statsSummary (proxyEndpoints config.ClusterHostURL n.name))
        (proxyAPI.statsContainer (proxyEndpoints config.ClusterHostURL n.name))
        (proxyAPI.mCAdvisor (proxyEndpoints config.ClusterHostURL n.name)) rfl]
      rcases hT2 : testNodeConn config proxyProbe config.ProxyEndpointMask
          (proxyAPI.statsSummary (proxyEndpoints config.ClusterHostURL n.name))
          (proxyAPI.statsContainer (proxyEndpoints config.ClusterHostURL n.name))
          (proxyAPI.mCAdvisor (proxyEndpoints config.ClusterHostURL n.name)) with ⟨res2, pmask⟩
      have hres2 : res2 = .ok false := by rw [hT2] at hPfalse; exact hPfalse
      subst hres2
      exact ⟨rfl, rfl, rfl⟩
    | false =>
      rcases hT2 : testNodeConn config proxyProbe config.ProxyEndpointMask
          (proxyAPI.statsSummary (proxyEndpoints config.ClusterHostURL n.name))
          (proxyAPI.statsContainer (proxyEndpoints config.ClusterHostURL n.name))
          (proxyAPI.mCAdvisor (proxyEndpoints config.ClusterHostURL n.name)) with ⟨res2, pmask⟩
      have hres2 : res2 = .ok false := by rw [hT2] at hPfalse; exact hPfalse
      subst hres2
      exact ⟨rfl, rfl, rfl⟩
  · intro hA hD
    rcases hT : testNodeConn config directProbe config.DirectEndpointMask
        (directNode.statsSummary (directNodeEndpoints ip port))
        (directNode.statsContainer (directNodeEndpoints ip port))
        (directNode.mCAdvisor (directNodeEndpoints ip port)) with ⟨res, dmask⟩
    have hres : res = .ok true := by rw [hT] at hD; exact hD
    subst hres
    have key : ∀ pp : ProbeOracle, ensureNodeSource config listResult directProbe pp =
        ({ { config with DirectEndpointMask := dmask } with
            nodeRetrievalMethod := NodeRetrievalMethod.direct }, none) := by
      intro pp
      unfold ensureNodeSource
      rw [hlist]
      simp only [List.headD_cons]
      rw [haddr]
      dsimp only
      rw [hA, hT]
      rfl
    refine ⟨?_, ?_, fun pp2 => by rw [key, key], ?_⟩
    · rw [key]
    · rw [key]
    · rw [key]

/-- C6 witness -/
theorem c6_ensureNodeSource_unreachable_or_direct_witness :
    (ensureNodeSource c6config (.ok [c6node]) c6probe c6probe).1.nodeRetrievalMethod =
      NodeRetrievalMethod.unreachable ∧
    (ensureNodeSource c6config (.ok [c6node]) c6probe c6probe).1.RetrieveNodeSummaries = false ∧
    (ensureNodeSource c6config (.ok [c6node]) c6probe c6probe).2 =
      some "unable to retrieve node metrics. Please verify RBAC roles: <nil>" :=
  (c6_ensureNodeSource_unreachable_or_direct c6config (.ok [c6node]) c6probe c6probe
    c6node [] "10.0.0.6" 10250 rfl rfl).1 (fun _ => rfl) rfl
